import Mathlib

/-!
Verification of the senskrap Twitcasting Premier scraping pipeline.

Shallow embedding of:
- `src/senskrap/base/base_scraper.py` (`BaseScraper.fetch`)
- `src/senskrap/base/base_parser.py` (URL extraction helpers)
- `src/senskrap/scrapers/twitcasting/premier/premier_shop.py`
  (`PremierScraper.search`, `scrape`, `_scrape_urls`, `_fetch_page_links`,
  `_get_premier_item`, `_scrape_items_from_urls`)
- `src/senskrap/scrapers/twitcasting/premier/premier_parser.py`
  (`ListParser`, `ItemParser`)
- `src/senskrap/scrapers/twitcasting/premier/premier_item.py`
  (`PremierItem`, `PremierTicket`)
- `src/senskrap/scrapers/twitcasting/premier/premier_genre.py` (`PremierGenre`)

External collaborators (aiohttp transport, BeautifulSoup selector engine,
urllib's `urljoin`, Python string primitives) are modelled explicitly:
documents are abstracted as the results of the selector queries the code
performs, network transport as an oracle, and Python string operations as
executable functions over character lists.
-/

/-- Exception types relevant to the scraper's control flow.  `clientError`
stands for `aiohttp.ClientError` (subclass of `Exception`), `typeError` for
Python's `TypeError`, `timeoutError` for the builtin/`asyncio` `TimeoutError`,
`connectionError` for Python's builtin `ConnectionError` (a subclass of
`OSError`, not of `aiohttp.ClientError`), and `valueError` for `ValueError`.
-/
inductive PyExc where
  | connectionError
  | clientError
  | typeError
  | timeoutError
  | valueError
  deriving DecidableEq, Repr

/-- The exception filter of the `except (ClientError, TypeError, TimeoutError)`
clauses in `premier_shop.py` (lines 185, 196, 230).  Note that the builtin
`ConnectionError` - which is what `BaseScraper.fetch` actually raises - is
not matched: `ConnectionError` subclasses `OSError`, not `aiohttp.ClientError`,
`TypeError` or `TimeoutError`. -/
def premierCatches : PyExc → Bool
  | .clientError => true
  | .typeError => true
  | .timeoutError => true
  | _ => false

namespace BaseScraper

/-- `BaseScraper.fetch` (`base_scraper.py` lines 153-191): issues the request
and returns the body text; any exception raised underneath (transport error,
timeout, or `raise_for_status` on a non-2xx response) is caught by
`except Exception` and re-raised as builtin `ConnectionError`.  The argument
is the outcome of the underlying `session.request` (the transport oracle). -/
def fetch (transport : Except PyExc String) : Except PyExc String :=
  match transport with
  | .ok body => .ok body
  | .error _ => .error .connectionError

end BaseScraper

/-- Model of `asyncio.gather(*tasks)` with the default
`return_exceptions=False`: if every task succeeds the results are returned in
task-submission order; if some task raises, awaiting the gather re-raises that
exception (the embedding deterministically picks the first failure in
submission order). -/
def gatherE {ε α : Type} : List (Except ε α) → Except ε (List α)
  | [] => .ok []
  | x :: xs =>
    match x with
    | .error e => .error e
    | .ok a => (gatherE xs).map (a :: ·)

/-- Python whitespace as used by `str.strip()` (restricted to the ASCII
whitespace characters). -/
def isPySpace (c : Char) : Bool :=
  c == ' ' || c == '\t' || c == '\n' || c == '\r' ||
  c == Char.ofNat 11 || c == Char.ofNat 12

/-- Bool check that the first list is a leading segment of the second. -/
def isLeadingChars : List Char → List Char → Bool
  | [], _ => true
  | _ :: _, [] => false
  | a :: as, b :: bs => a == b && isLeadingChars as bs

/-- Bool check that `pat` occurs as a contiguous substring. -/
def containsPat (pat : List Char) : List Char → Bool
  | [] => isLeadingChars pat []
  | c :: rest => isLeadingChars pat (c :: rest) || containsPat pat rest

/-- Fueled scanner for Python's `str.replace(old, "")`: a single left-to-right
pass deleting each non-overlapping occurrence of `pat`; scanning resumes after
the deleted region and never rescans across a deletion boundary.  The fuel is
instantiated with the input length, which suffices since each step consumes at
least one character. -/
def replaceAllAux (pat : List Char) : Nat → List Char → List Char
  | _, [] => []
  | 0, l => l
  | fuel + 1, c :: rest =>
    if !pat.isEmpty && isLeadingChars pat (c :: rest) then
      replaceAllAux pat fuel (rest.drop (pat.length - 1))
    else
      c :: replaceAllAux pat fuel rest

/-- Python `s.replace(pat, "")`. -/
def removeAllChars (pat s : List Char) : List Char :=
  replaceAllAux pat s.length s

/-- Right-whitespace trimming; the result is a leading segment of the input. -/
def rstripChars : List Char → List Char
  | [] => []
  | c :: rest =>
    match rstripChars rest with
    | [] => if isPySpace c then [] else [c]
    | d :: ds => c :: d :: ds

/-- Python `str.strip()`: trim whitespace from both ends. -/
def stripChars (l : List Char) : List Char :=
  rstripChars (l.dropWhile isPySpace)

/-- String wrapper for `str.strip()`. -/
def pyStrip (s : String) : String := ⟨stripChars s.data⟩

/-- String wrapper for `s.replace(pat, "")`. -/
def pyRemoveAll (s pat : String) : String := ⟨removeAllChars pat.data s.data⟩

/-- Bool substring test on strings. -/
def containsSub (pat s : String) : Bool := containsPat pat.data s.data

/-- Digits-only parse of a nonempty character list. -/
def digitsToNat : List Char → Option Nat
  | [] => none
  | cs => go cs 0
where
  go : List Char → Nat → Option Nat
    | [], acc => some acc
    | c :: rest, acc =>
      if c.isDigit then go rest (acc * 10 + (c.toNat - 48)) else none

/-- Python `int(s)` on stripped text: optional sign followed by digits,
`none` models the `ValueError` path. -/
def pyToInt (s : String) : Option Int :=
  match stripChars s.data with
  | '-' :: rest => (digitsToNat rest).map (fun n => -(n : Int))
  | '+' :: rest => (digitsToNat rest).map (fun n => (n : Int))
  | cs => (digitsToNat cs).map (fun n => (n : Int))

/-- The site base used by both parsers and the scraper
(`_BASE_URL = "https://twitcasting.tv"`). -/
def twitcastingBase : String := "https://twitcasting.tv"

/-- Modelled from the spec: resolution of extracted links "relative to the
site's base URL".  `urllib.parse.urljoin` is standard-library code outside the
repository; the model covers the cases arising for a scheme-plus-host base
with no path, which is the only base the code supplies (`_BASE_URL`). -/
def pyUrljoin (base rel : String) : String :=
  if rel = "" then base
  else if isLeadingChars "http://".data rel.data then rel
  else if isLeadingChars "https://".data rel.data then rel
  else if isLeadingChars "//".data rel.data then "https:" ++ rel
  else if isLeadingChars "/".data rel.data then base ++ rel
  else base ++ "/" ++ rel

/-- `BaseParser.extract_url` (`base_parser.py` lines 91-106): reads the
attribute (here already extracted into an `Option String`, `none` when the
attribute is missing), treats a falsy (empty) value as absent, and resolves
against the base URL when one is given. -/
def extract_url (attrVal : Option String) (baseUrl : Option String) : Option String :=
  match attrVal with
  | none => none
  | some u =>
    if u = "" then none
    else
      match baseUrl with
      | some b => some (pyUrljoin b u)
      | none => some u

/-- `BaseParser.extract_urls` (`base_parser.py` lines 76-88): keeps, in element
order, every extracted URL that is non-falsy. -/
def extract_urls (attrVals : List (Option String)) (baseUrl : Option String) : List String :=
  attrVals.filterMap (fun v => extract_url v baseUrl)

/-- `PremierTicket` (`premier_item.py`). -/
structure PremierTicket where
  title : Option String
  price : Option String
  deriving DecidableEq, Repr

/-- `PremierItem` (`premier_item.py`).  `to_dict` (an `asdict` call) is
modelled as the record itself. -/
structure PremierItem where
  url : String
  title : Option String
  author : Option String
  author_url : Option String
  date : Option String
  description : Option String
  image_url : Option String
  available_until : Option String
  archive_sales_deadline : Option String
  tickets : List PremierTicket
  deriving DecidableEq, Repr

/-- One `.tw-shop-ticket-button2` container of a detail page, abstracted as
the results of the two selector queries `ItemParser.parse` performs on it:
the stripped text of the title and price sub-elements (`none` when the
sub-element is absent, as `extract_text` returns `None`). -/
structure TicketDoc where
  titleText : Option String
  priceText : Option String
  deriving DecidableEq, Repr

/-- A detail-page document, abstracted as the results of the selector queries
`ItemParser.parse` performs (the BeautifulSoup engine is an external
collaborator).  Element-text fields are `none` exactly when `select_one` finds
nothing; `authorHref`/`imageSrc` are `some a` when the element exists, where
`a` is `str(element.get(attr, ""))`; `descriptionText` is the `get_text()`
result of the description element after the line-break insertion of
`extract_with_line_breaks`, before its strip post-processing. -/
structure ItemDoc where
  titleText : Option String
  authorText : Option String
  authorHref : Option String
  dateText : Option String
  descriptionText : Option String
  imageSrc : Option String
  availableUntilText : Option String
  archiveText : Option String
  tickets : List TicketDoc
  deriving DecidableEq, Repr

/-- Strip post-processing of `BaseParser.extract_with_line_breaks`
(`base_parser.py` lines 68-73): with `strip=True`, split into lines, strip
each, and rejoin the nonempty ones; otherwise strip the whole text.
The line-break-insertion phase is already reflected in the document field. -/
def lineBreaksPost (text : String) (strip : Bool) : String :=
  if strip then
    String.intercalate "\n"
      (((text.split (· == '\n')).map pyStrip).filter (fun l => l ≠ ""))
  else pyStrip text

/-- The annotation literal stripped from ticket prices in
`ItemParser.parse` (`premier_parser.py` line 65). -/
def taxIncluded : String := "(tax included)"

namespace ItemParser

/-- `ItemParser.parse` (`premier_parser.py` lines 53-83): builds a
`PremierItem` from the detail-page selector results, passing the `url`
argument through unchanged, resolving author/image URLs against `_BASE_URL`,
stripping the `"(tax included)"` annotation from each ticket price and the
`"Available Period"` / `"Archive sales deadline:"` prefixes from the date
fields. -/
def parse (doc : ItemDoc) (url : String) (strip : Bool) : PremierItem :=
  { url := url
    title := doc.titleText
    author := doc.authorText
    author_url := doc.authorHref.map (fun h => pyUrljoin twitcastingBase h)
    date := doc.dateText
    description := doc.descriptionText.map (fun t => lineBreaksPost t strip)
    image_url := doc.imageSrc.map (fun s => pyUrljoin twitcastingBase s)
    available_until :=
      doc.availableUntilText.map (fun r => pyStrip (pyRemoveAll r "Available Period"))
    archive_sales_deadline :=
      doc.archiveText.map (fun r => pyStrip (pyRemoveAll r "Archive sales deadline:"))
    tickets :=
      doc.tickets.map (fun td =>
        { title := td.titleText
          price := td.priceText.map (fun r => pyStrip (pyRemoveAll r taxIncluded)) }) }

end ItemParser

/-- A listing-page document, abstracted as the results of the selector
queries `ListParser.parse` performs.  `hasEmptyMarker` is the truthiness of
`soup.select_one(self._EMPTY_STATE_SELECTOR)`; the selector constant itself
lives in `TwitcastingParser` (a file not under src), so per the spec it is
the "empty results" marker of the listing page.  `thumbnailHrefs` holds the
`href` attribute of each `a.tw-shop-item-thumbnail` match in document order
(`none` when the attribute is missing); `pagerLastText` is the
`get_text(strip=True)` of the last pager anchor when one matches. -/
structure ListDoc where
  hasEmptyMarker : Bool
  thumbnailHrefs : List (Option String)
  pagerLastText : Option String
  deriving DecidableEq, Repr

namespace ListParser

/-- `ListParser._get_total_pages` (`premier_parser.py` lines 29-36): the
integer text of the last pager anchor, defaulting to 1 when the anchor is
absent or its text fails `int()`. -/
def get_total_pages (doc : ListDoc) : Int :=
  match doc.pagerLastText with
  | none => 1
  | some t =>
    match pyToInt t with
    | some n => n
    | none => 1

/-- `ListParser.parse` (`premier_parser.py` lines 19-27): `([], 0)` when the
empty-results marker is present, otherwise the thumbnail links resolved
against `_BASE_URL` together with the pager-derived page count. -/
def parse (doc : ListDoc) : List String × Int :=
  if doc.hasEmptyMarker then ([], 0)
  else (extract_urls doc.thumbnailHrefs (some twitcastingBase), get_total_pages doc)

end ListParser

/-- `PremierGenre` (`premier_genre.py`): the fixed enumeration of category
codes. -/
inductive PremierGenre where
  | MUSIC | THEATER_COMEDY | SPORTS | EVENT | OTHER
  | ROCK | VISUAL_KEI | IDOL | J_POP | JAZZ_FUSION | ANIME_SONG | CLASSIC
  | CHORUS_ACAPELLA | WIND_MUSIC | VTUBER | ACOUSTIC | OTHER_MUSIC
  | PLAY | MUSICAL | CLASSICAL_PERFORMING_ARTS | DANCE | READING_ALOUD
  | COMEDY | RAKUGO | OTHER_THEATER_COMEDY
  | MARTIAL_ARTS | OTHER_SPORTS
  | GAME | ANIME_EVENT | TALK_SHOW | OTHER_EVENT
  deriving DecidableEq, Repr

/-- The integer value of each `PremierGenre` member (`premier_genre.py`). -/
def PremierGenre.value : PremierGenre → Nat
  | .MUSIC => 1
  | .THEATER_COMEDY => 2
  | .SPORTS => 3
  | .EVENT => 11
  | .OTHER => 99
  | .ROCK => 101
  | .VISUAL_KEI => 102
  | .IDOL => 103
  | .J_POP => 105
  | .JAZZ_FUSION => 107
  | .ANIME_SONG => 109
  | .CLASSIC => 116
  | .CHORUS_ACAPELLA => 117
  | .WIND_MUSIC => 118
  | .VTUBER => 119
  | .ACOUSTIC => 120
  | .OTHER_MUSIC => 121
  | .PLAY => 201
  | .MUSICAL => 202
  | .CLASSICAL_PERFORMING_ARTS => 204
  | .DANCE => 205
  | .READING_ALOUD => 206
  | .COMEDY => 207
  | .RAKUGO => 208
  | .OTHER_THEATER_COMEDY => 299
  | .MARTIAL_ARTS => 302
  | .OTHER_SPORTS => 399
  | .GAME => 1101
  | .ANIME_EVENT => 1102
  | .TALK_SHOW => 1103
  | .OTHER_EVENT => 1199

/-- A calendar date, as consumed by `search`'s `date.strftime("%Y%m%d")`. -/
structure PyDate where
  year : Nat
  month : Nat
  day : Nat
  deriving DecidableEq, Repr

/-- Left-pad the decimal representation with zeros to the given width. -/
def padNat (w n : Nat) : String :=
  let s := toString n
  if s.length < w then String.mk (List.replicate (w - s.length) '0') ++ s else s

/-- `date.strftime("%Y%m%d")` (standard-library formatting used at
`premier_shop.py` line 132). -/
def PyDate.strftimeYMD (d : PyDate) : String :=
  padNat 4 d.year ++ padNat 2 d.month ++ padNat 2 d.day

/-- A query payload: the request-parameter dictionary built by
`PremierScraper.search`. -/
def Payload := List (String × String)

/-- One network fetch issued by the scraper: the initial page-1 listing fetch
(no explicit page parameter), a listing fetch with page parameter `p`, or a
detail-page fetch for `url`. -/
inductive FetchCall where
  | initial
  | page (p : Int)
  | item (url : String)
  deriving DecidableEq, Repr

/-- The page parameters among a trace of fetch calls. -/
def pageParams (tr : List FetchCall) : List Int :=
  tr.filterMap (fun c =>
    match c with
    | .page p => some p
    | _ => none)

/-- The `pages_to_scrape` expression of `PremierScraper._scrape_urls`
(lines 201-205): `min(actual_total_pages, max_pages)` when a cap is supplied,
else `actual_total_pages`. -/
def effectivePages (total : Int) (maxPages : Option Int) : Int :=
  match maxPages with
  | some m => min total m
  | none => total

/-- The page parameters of the additional page fetches:
`range(1, pages_to_scrape)` at `premier_shop.py` line 213. -/
def pageRangeInt (pages : Int) : List Int :=
  (List.range' 1 (pages - 1).toNat).map Int.ofNat

namespace PremierScraper

/-- `PremierScraper._fetch_page_links` (lines 222-233): fetches one listing
page (with page parameter `p`) and parses it for links; `ClientError`,
`TypeError` and `TimeoutError` degrade to an empty list, anything else
propagates.  `pageTransport` is the transport oracle for the page-parameter
fetches, `docOfList` the selector-engine oracle turning body text into the
listing-document abstraction. -/
def fetch_page_links (pageTransport : Int → Except PyExc String)
    (docOfList : String → ListDoc) (p : Int) : Except PyExc (List String) :=
  match BaseScraper.fetch (pageTransport p) with
  | .error e => if premierCatches e then .ok [] else .error e
  | .ok html => .ok (ListParser.parse (docOfList html)).1

/-- `PremierScraper._scrape_urls` (lines 188-220), instrumented with the trace
of fetch calls it issues.  Fetches page 1, parses it for links and the total
page count, computes the effective page count, and - when more than one page
is in range - gathers `_fetch_page_links` tasks for `range(1, pages_to_scrape)`
and concatenates their results after the page-1 links.  The
`except (ClientError, TypeError, TimeoutError)` around the initial fetch
degrades those exception types to `[]`. -/
def scrape_urls_trace (initTransport : Except PyExc String)
    (pageTransport : Int → Except PyExc String) (docOfList : String → ListDoc)
    (maxPages : Option Int) : Except PyExc (List String) × List FetchCall :=
  match BaseScraper.fetch initTransport with
  | .error e =>
    (if premierCatches e then .ok [] else .error e, [.initial])
  | .ok initialHtml =>
    if initialHtml = "" then (.ok [], [.initial])
    else
      let parsed := ListParser.parse (docOfList initialHtml)
      let pages := effectivePages parsed.2 maxPages
      if pages ≤ 1 then (.ok parsed.1, [.initial])
      else
        let nums := pageRangeInt pages
        let gathered := gatherE (nums.map (fetch_page_links pageTransport docOfList))
        (gathered.map (fun rs => parsed.1 ++ rs.flatten), .initial :: nums.map .page)

/-- `PremierScraper._scrape_urls` without the instrumentation. -/
def scrape_urls (initTransport : Except PyExc String)
    (pageTransport : Int → Except PyExc String) (docOfList : String → ListDoc)
    (maxPages : Option Int) : Except PyExc (List String) :=
  (scrape_urls_trace initTransport pageTransport docOfList maxPages).1

/-- `PremierScraper._get_premier_item` (lines 176-186): fetches the detail
page, returns `None` for a falsy body, parses otherwise; `ClientError`,
`TypeError` and `TimeoutError` degrade to `None`, anything else propagates.
`docOfItem` is the selector-engine oracle for detail pages. -/
def get_premier_item (itemTransport : String → Except PyExc String)
    (docOfItem : String → ItemDoc) (url : String) (strip : Bool) :
    Except PyExc (Option PremierItem) :=
  match BaseScraper.fetch (itemTransport url) with
  | .error e => if premierCatches e then .ok none else .error e
  | .ok html =>
    if html = "" then .ok none
    else .ok (some (ItemParser.parse (docOfItem html) url strip))

/-- `PremierScraper.get_item_info` (lines 138-150): `_get_premier_item`
followed by `to_dict` (modelled as the record itself). -/
def get_item_info (itemTransport : String → Except PyExc String)
    (docOfItem : String → ItemDoc) (url : String) (strip : Bool) :
    Except PyExc (Option PremierItem) :=
  get_premier_item itemTransport docOfItem url strip

/-- `PremierScraper._scrape_items_from_urls` (lines 235-252): one
`get_item_info` task per URL gathered under the semaphore, then the non-`None`
results in task order. -/
def scrape_items_from_urls (itemTransport : String → Except PyExc String)
    (docOfItem : String → ItemDoc) (urls : List String) (strip : Bool) :
    Except PyExc (List PremierItem) :=
  if urls.isEmpty then .ok []
  else
    (gatherE (urls.map (fun u => get_item_info itemTransport docOfItem u strip))).map
      (fun results => results.filterMap id)

/-- The number of non-`None` entries of
`criteria = [c for c in (search, date, genre) if c is not None]`
(`premier_shop.py` line 124). -/
def countCriteria (search : Option String) (date : Option PyDate)
    (genre : Option PremierGenre) : Nat :=
  (if search.isSome then 1 else 0) + (if date.isSome then 1 else 0) +
    (if genre.isSome then 1 else 0)

/-- The payload built by `PremierScraper.search` (lines 129-134): the
`if`/`elif` chain over the three criteria. -/
def buildPayload (search : Option String) (date : Option PyDate)
    (genre : Option PremierGenre) : Payload :=
  match search with
  | some s => [("search", s)]
  | none =>
    match date with
    | some d => [("date", d.strftimeYMD)]
    | none =>
      match genre with
      | some g => [("genre", toString g.value)]
      | none => []

/-- The environment of a search call: transport oracles for the initial and
page-parameter listing fetches (both depending on the payload) and the
selector-engine oracle for listing documents. -/
structure SearchEnv where
  initial : Payload → Except PyExc String
  page : Payload → Int → Except PyExc String
  docOfList : String → ListDoc

/-- The additional environment of a scrape call: the transport oracle for
detail-page fetches and the selector-engine oracle for detail documents. -/
structure ItemEnv where
  transport : String → Except PyExc String
  docOfItem : String → ItemDoc

/-- `PremierScraper.search` (lines 96-136), instrumented with the fetch
trace: validates that exactly one criterion is supplied (raising `ValueError`
otherwise, before any fetch), builds the payload, and runs `_scrape_urls`. -/
def search (searchTerm : Option String) (date : Option PyDate)
    (genre : Option PremierGenre) (env : SearchEnv) (maxPages : Option Int) :
    Except PyExc (List String) × List FetchCall :=
  if countCriteria searchTerm date genre ≠ 1 then (.error .valueError, [])
  else
    let payload := buildPayload searchTerm date genre
    scrape_urls_trace (env.initial payload) (env.page payload) env.docOfList maxPages

/-- `PremierScraper.scrape` (lines 57-94), instrumented with the fetch trace:
`search` followed by `_scrape_items_from_urls` on the discovered URLs (each of
which is fetched by its task). -/
def scrape (searchTerm : Option String) (date : Option PyDate)
    (genre : Option PremierGenre) (env : SearchEnv) (ienv : ItemEnv)
    (maxPages : Option Int) (strip : Bool) :
    Except PyExc (List PremierItem) × List FetchCall :=
  match search searchTerm date genre env maxPages with
  | (.error e, tr) => (.error e, tr)
  | (.ok urls, tr) =>
    (scrape_items_from_urls ienv.transport ienv.docOfItem urls strip,
      tr ++ urls.map .item)

end PremierScraper

/-- Phase of one fan-out task with respect to the concurrency limiter: not yet
admitted, holding a semaphore slot with its fetch in flight, or finished
(slot released). -/
inductive TaskPhase where
  | pending
  | running
  | finished
  deriving DecidableEq, Repr

/-- State of one fan-out call's limiter: the free-slot count of the
`asyncio.Semaphore` together with the phase of each task.  Both fan-outs
(`_scrape_urls` lines 210-215 and `_scrape_items_from_urls` lines 242-250)
create `Semaphore(concurrency)` and wrap each task's fetch in
`async with semaphore`. -/
structure SemState where
  avail : Nat
  tasks : List TaskPhase
  deriving DecidableEq, Repr

/-- Interleaving semantics of the limiter: a pending task is admitted only
when a slot is free (`async with semaphore` acquires, blocking at zero), and a
running task's completion releases its slot.  The task lists are addressed by
decomposition so a step changes exactly one task. -/
inductive SemStep : SemState → SemState → Prop where
  | acquire (k : Nat) (l₁ l₂ : List TaskPhase) :
      SemStep ⟨k + 1, l₁ ++ TaskPhase.pending :: l₂⟩
        ⟨k, l₁ ++ TaskPhase.running :: l₂⟩
  | release (k : Nat) (l₁ l₂ : List TaskPhase) :
      SemStep ⟨k, l₁ ++ TaskPhase.running :: l₂⟩
        ⟨k + 1, l₁ ++ TaskPhase.finished :: l₂⟩

/-- Initial state of a fan-out call: `Semaphore(concurrency)` with all
`numTasks` tasks submitted to `gather` and awaiting admission. -/
def initSemState (concurrency numTasks : Nat) : SemState :=
  ⟨concurrency, List.replicate numTasks TaskPhase.pending⟩

/-- States a fan-out call with the given concurrency and task count can be in. -/
inductive SemReachable (concurrency numTasks : Nat) : SemState → Prop where
  | init : SemReachable concurrency numTasks (initSemState concurrency numTasks)
  | step {s t : SemState} : SemReachable concurrency numTasks s → SemStep s t →
      SemReachable concurrency numTasks t

/-- The number of fetches in flight: tasks currently holding a slot. -/
def inFlight (s : SemState) : Nat :=
  s.tasks.countP (· == TaskPhase.running)

/-- The number of opening parentheses in a character list. -/
def countParen (l : List Char) : Nat :=
  l.countP (· == '(')

/-- Listing document with no selector matches. -/
def emptyListDoc : ListDoc := ⟨false, [], none⟩

/-- Detail document with no selector matches. -/
def emptyItemDoc : ItemDoc := ⟨none, none, none, none, none, none, none, none, []⟩

/-- Item transport for the C3 divergence: the second URL's fetch fails. -/
def c3Transport : String → Except PyExc String :=
  fun u => if u = "u1" then Except.ok "<html>" else Except.error PyExc.clientError

/-- Page transport for the C4 divergence: the fetch with page parameter 1
fails, the others succeed. -/
def c4PageTransport : Int → Except PyExc String :=
  fun p => if p = 1 then Except.error PyExc.clientError else Except.ok "pN"

/-- Selector oracle for the C4 divergence: every listing page shows one
thumbnail link and a pager whose last entry reads 3. -/
def c4DocOf : String → ListDoc :=
  fun h =>
    if h = "p1" then ⟨false, [some "/alice/shopcart/10"], some "3"⟩
    else ⟨false, [some "/bob/shopcart/20"], some "3"⟩

/-- Detail document whose single ticket price is crafted so that deleting the
embedded "(tax included)" splices a new occurrence out of the surrounding
characters. -/
def c8SpliceDoc : ItemDoc :=
  { titleText := none, authorText := none, authorHref := none, dateText := none,
    descriptionText := none, imageSrc := none, availableUntilText := none,
    archiveText := none,
    tickets := [⟨some "Ticket", some "(tax inc(tax included)luded)"⟩] }

/-- Item outcome of one fan-out task as the caller observes it on the
non-raising paths: the parsed record, or `none` for a dropped entry. -/
def itemOutcome (tr : String → Except PyExc String) (docOf : String → ItemDoc)
    (u : String) (st : Bool) : Option PremierItem :=
  match PremierScraper.get_item_info tr docOf u st with
  | .ok v => v
  | .error _ => none

/-- Link contribution of one page-fan-out task on the non-raising paths. -/
def pageOutcome (pt : Int → Except PyExc String) (dl : String → ListDoc)
    (p : Int) : List String :=
  match PremierScraper.fetch_page_links pt dl p with
  | .ok ls => ls
  | .error _ => []

/-- Degenerate search environment for witnesses. -/
def trivialSearchEnv : PremierScraper.SearchEnv :=
  ⟨fun _ => Except.ok "", fun _ _ => Except.ok "", fun _ => emptyListDoc⟩

/-- Degenerate item environment for witnesses. -/
def trivialItemEnv : PremierScraper.ItemEnv :=
  ⟨fun _ => Except.ok "", fun _ => emptyItemDoc⟩

/-- Selector oracle for the C5 and C10 witnesses: every listing page shows one
thumbnail link and a pager whose last entry reads 5. -/
def c5DocOf : String → ListDoc :=
  fun _ => ⟨false, [some "/alice/shopcart/1"], some "5"⟩

/-- Detail document whose ticket price carries an ordinary annotation. -/
def c8CleanDoc : ItemDoc :=
  { titleText := none, authorText := none, authorHref := none, dateText := none,
    descriptionText := none, imageSrc := none, availableUntilText := none,
    archiveText := none,
    tickets := [⟨some "General", some " 1,000 JPY (tax included) "⟩] }

/-- Item transport for the C10 witness: the second URL's body is empty, so its
entry is dropped without an exception. -/
def c10ItemTransport : String → Except PyExc String :=
  fun u => if u = "u2" then Except.ok "" else Except.ok "<html>"

/-- The resolved link every listing page of `c5DocOf` contributes. -/
def c10Link : String := "https://twitcasting.tv/alice/shopcart/1"

theorem gatherE_eq_ok {ε α : Type} :
    ∀ (l : List (Except ε α)) (r : List α),
      gatherE l = .ok r ↔ l = r.map Except.ok := by
  intro l
  induction l with
  | nil =>
    intro r
    constructor
    · intro h
      cases r with
      | nil => rfl
      | cons a as => simp [gatherE] at h
    · intro h
      cases r with
      | nil => rfl
      | cons a as => simp at h
  | cons x xs ih =>
    intro r
    constructor
    · intro h
      cases x with
      | error e => simp [gatherE] at h
      | ok a =>
        simp only [gatherE] at h
        cases hrec : gatherE xs with
        | error e => rw [hrec] at h; simp [Except.map] at h
        | ok as =>
          rw [hrec] at h
          simp only [Except.map, Except.ok.injEq] at h
          subst h
          simp [(ih as).mp hrec]
    · intro h
      cases r with
      | nil => simp at h
      | cons b bs =>
        simp only [List.map_cons, List.cons.injEq] at h
        obtain ⟨h1, h2⟩ := h
        subst h1
        simp [gatherE, (ih bs).mpr h2, Except.map]

theorem gatherE_error_mem {ε α : Type} :
    ∀ (l : List (Except ε α)) (e : ε),
      gatherE l = .error e → Except.error e ∈ l := by
  intro l
  induction l with
  | nil => intro e h; simp [gatherE] at h
  | cons x xs ih =>
    intro e h
    cases x with
    | error d =>
      simp [gatherE] at h
      simp [h]
    | ok a =>
      simp only [gatherE] at h
      cases hrec : gatherE xs with
      | error d =>
        rw [hrec] at h
        simp [Except.map] at h
        subst h
        exact List.mem_cons_of_mem _ (ih _ hrec)
      | ok as => rw [hrec] at h; simp [Except.map] at h

theorem countP_running_replicate_pending (m : Nat) :
    (List.replicate m TaskPhase.pending).countP (· == TaskPhase.running) = 0 := by
  induction m with
  | zero => rfl
  | succ n ih => simp [List.replicate, List.countP_cons, ih]

theorem semInvariant {c m : Nat} {s : SemState} (h : SemReachable c m s) :
    s.avail + inFlight s = c := by
  induction h with
  | init => simp [initSemState, inFlight, countP_running_replicate_pending]
  | step _ hstep ih =>
    cases hstep with
    | acquire k l₁ l₂ =>
      simp [inFlight, List.countP_append, List.countP_cons] at ih ⊢
      omega
    | release k l₁ l₂ =>
      simp [inFlight, List.countP_append, List.countP_cons] at ih ⊢
      omega

theorem isLeading_append_drop :
    ∀ (pat s : List Char), isLeadingChars pat s = true →
      s = pat ++ s.drop pat.length := by
  intro pat
  induction pat with
  | nil => intro s _; simp
  | cons a as ih =>
    intro s h
    cases s with
    | nil => simp [isLeadingChars] at h
    | cons b bs =>
      simp only [isLeadingChars, Bool.and_eq_true, beq_iff_eq] at h
      obtain ⟨hab, hrest⟩ := h
      subst hab
      simpa using ih bs hrest

theorem noParen_noContains (pt : List Char) :
    ∀ (s : List Char), countParen s = 0 →
      containsPat ('(' :: pt) s = false := by
  intro s
  induction s with
  | nil => intro _; rfl
  | cons c rest ih =>
    intro h
    simp only [countParen, List.countP_cons, beq_iff_eq] at h
    have hc : c ≠ '(' := by
      intro hc
      simp [hc] at h
    have hrest : countParen rest = 0 := by
      simp only [countParen]
      omega
    simp only [containsPat, isLeadingChars, Bool.or_eq_false_iff,
      Bool.and_eq_false_iff]
    refine ⟨Or.inl ?_, ih hrest⟩
    simp [beq_iff_eq]
    exact fun h2 => hc h2.symm

theorem noParen_replaceAux_id (pt : List Char) :
    ∀ (fuel : Nat) (s : List Char), countParen s = 0 →
      replaceAllAux ('(' :: pt) fuel s = s := by
  intro fuel
  induction fuel with
  | zero =>
    intro s _
    cases s with
    | nil => rfl
    | cons c rest => rfl
  | succ n ih =>
    intro s h
    cases s with
    | nil => rfl
    | cons c rest =>
      simp only [countParen, List.countP_cons, beq_iff_eq] at h
      have hc : c ≠ '(' := by
        intro hc
        simp [hc] at h
      have hrest : countParen rest = 0 := by
        simp only [countParen]
        omega
      have hlead : isLeadingChars ('(' :: pt) (c :: rest) = false := by
        simp only [isLeadingChars, Bool.and_eq_false_iff]
        refine Or.inl ?_
        simp [beq_iff_eq]
        exact fun h2 => hc h2.symm
      simp [replaceAllAux, hlead, ih rest hrest]

theorem clean_after_remove (pt : List Char)
    (hpat : countParen ('(' :: pt) = 1) :
    ∀ (fuel : Nat) (s : List Char), s.length ≤ fuel → countParen s ≤ 1 →
      containsPat ('(' :: pt) (replaceAllAux ('(' :: pt) fuel s) = false := by
  intro fuel
  induction fuel with
  | zero =>
    intro s hlen _
    have hs : s = [] := by
      cases s with
      | nil => rfl
      | cons c rest => simp at hlen
    subst hs
    rfl
  | succ n ih =>
    intro s hlen hc
    cases s with
    | nil => rfl
    | cons c rest =>
      by_cases hm : isLeadingChars ('(' :: pt) (c :: rest) = true
      · have hsplit := isLeading_append_drop ('(' :: pt) (c :: rest) hm
        have hdrop : (c :: rest).drop (('(' :: pt).length) = rest.drop pt.length := by
          simp
        have htail : countParen (rest.drop pt.length) = 0 := by
          have := congrArg countParen hsplit
          rw [hdrop] at this
          simp only [countParen, List.countP_append] at this
          have h1 : List.countP (· == '(') ('(' :: pt) = 1 := hpat
          simp only [countParen] at hc ⊢
          omega
        have hred : replaceAllAux ('(' :: pt) (n + 1) (c :: rest)
            = replaceAllAux ('(' :: pt) n (rest.drop pt.length) := by
          simp [replaceAllAux, hm]
        rw [hred, noParen_replaceAux_id pt n _ htail]
        exact noParen_noContains pt _ htail
      · have hm2 : isLeadingChars ('(' :: pt) (c :: rest) = false := by
          simpa using hm
        have hred : replaceAllAux ('(' :: pt) (n + 1) (c :: rest)
            = c :: replaceAllAux ('(' :: pt) n rest := by
          simp [replaceAllAux, hm2]
        rw [hred]
        by_cases hcp : c = '('
        · have hrest : countParen rest = 0 := by
            subst hcp
            have hcc : countParen ('(' :: rest) = countParen rest + 1 := by
              simp [countParen, List.countP_cons]
            omega
          rw [noParen_replaceAux_id pt n rest hrest]
          simp only [containsPat, Bool.or_eq_false_iff]
          exact ⟨hm2, noParen_noContains pt rest hrest⟩
        · have hrest : countParen rest ≤ 1 := by
            simp only [countParen, List.countP_cons] at hc ⊢
            omega
          have hlen2 : rest.length ≤ n := by
            simpa using hlen
          have hR := ih rest hlen2 hrest
          simp only [containsPat, Bool.or_eq_false_iff]
          refine ⟨?_, hR⟩
          simp only [isLeadingChars, Bool.and_eq_false_iff]
          refine Or.inl ?_
          simp [beq_iff_eq]
          exact fun h2 => hcp h2.symm

theorem isLeading_append_right :
    ∀ (pat l t : List Char), isLeadingChars pat l = true →
      isLeadingChars pat (l ++ t) = true := by
  intro pat
  induction pat with
  | nil => intro l t _; rfl
  | cons a as ih =>
    intro l t h
    cases l with
    | nil => simp [isLeadingChars] at h
    | cons b bs =>
      simp only [isLeadingChars, Bool.and_eq_true] at h ⊢
      exact ⟨h.1, ih bs t h.2⟩

theorem containsPat_append_right :
    ∀ (pat l t : List Char), containsPat pat l = true →
      containsPat pat (l ++ t) = true := by
  intro pat l
  induction l with
  | nil =>
    intro t h
    simp only [containsPat] at h
    cases pat with
    | nil =>
      cases t with
      | nil => rfl
      | cons c cs => simp [containsPat, isLeadingChars]
    | cons a as => simp [isLeadingChars] at h
  | cons c rest ih =>
    intro t h
    simp only [containsPat, Bool.or_eq_true] at h ⊢
    cases h with
    | inl h1 =>
      have := isLeading_append_right pat (c :: rest) t h1
      simpa using Or.inl this
    | inr h2 => exact Or.inr (ih t h2)

theorem rstrip_leading :
    ∀ (l : List Char), ∃ t, l = rstripChars l ++ t := by
  intro l
  induction l with
  | nil => exact ⟨[], rfl⟩
  | cons c rest ih =>
    obtain ⟨t, ht⟩ := ih
    cases hr : rstripChars rest with
    | nil =>
      by_cases hsp : isPySpace c = true
      · refine ⟨c :: rest, ?_⟩
        simp [rstripChars, hr, hsp]
    
      · refine ⟨rest, ?_⟩
        have : rstripChars (c :: rest) = [c] := by
          simp only [rstripChars, hr]
          simp [hsp]
        simp [this]
    | cons d ds =>
      refine ⟨t, ?_⟩
      have : rstripChars (c :: rest) = c :: d :: ds := by
        simp [rstripChars, hr]
      rw [this]
      rw [hr] at ht
      simpa using ht

theorem containsPat_dropWhile (pat : List Char) (q : Char → Bool) :
    ∀ (l : List Char), containsPat pat (l.dropWhile q) = true →
      containsPat pat l = true := by
  intro l
  induction l with
  | nil => intro h; simpa using h
  | cons c rest ih =>
    intro h
    by_cases hq : q c = true
    · rw [List.dropWhile_cons_of_pos hq] at h
      simp only [containsPat, Bool.or_eq_true]
      exact Or.inr (ih h)
    · rw [List.dropWhile_cons_of_neg (by simpa using hq)] at h
      exact h

theorem containsPat_strip (pat l : List Char)
    (h : containsPat pat (stripChars l) = true) :
    containsPat pat l = true := by
  apply containsPat_dropWhile pat isPySpace
  obtain ⟨t, ht⟩ := rstrip_leading (l.dropWhile isPySpace)
  rw [ht]
  exact containsPat_append_right pat _ t h

theorem fetch_page_links_error_shape
    (pt : Int → Except PyExc String) (dl : String → ListDoc) (p : Int)
    (e : PyExc) (h : PremierScraper.fetch_page_links pt dl p = .error e) :
    e = .connectionError := by
  unfold PremierScraper.fetch_page_links at h
  cases htr : pt p with
  | ok body => rw [htr] at h; simp [BaseScraper.fetch] at h
  | error d =>
    rw [htr] at h
    simp [BaseScraper.fetch, premierCatches] at h
    exact h.symm

theorem get_item_info_error_shape
    (tr : String → Except PyExc String) (docOf : String → ItemDoc)
    (u : String) (st : Bool) (e : PyExc)
    (h : PremierScraper.get_item_info tr docOf u st = .error e) :
    e = .connectionError := by
  unfold PremierScraper.get_item_info PremierScraper.get_premier_item at h
  cases htr : tr u with
  | ok body =>
    rw [htr] at h
    simp only [BaseScraper.fetch] at h
    by_cases hb : body = ""
    · simp [hb] at h
    · simp [hb] at h
  | error d =>
    rw [htr] at h
    simp [BaseScraper.fetch, premierCatches] at h
    exact h.symm

theorem scrape_urls_error_shape
    (it : Except PyExc String) (pt : Int → Except PyExc String)
    (dl : String → ListDoc) (mp : Option Int) (e : PyExc)
    (h : (PremierScraper.scrape_urls_trace it pt dl mp).1 = .error e) :
    e = .connectionError := by
  unfold PremierScraper.scrape_urls_trace at h
  cases htr : it with
  | error d =>
    rw [htr] at h
    simp [BaseScraper.fetch, premierCatches] at h
    exact h.symm
  | ok html =>
    rw [htr] at h
    simp only [BaseScraper.fetch] at h
    by_cases hb : html = ""
    · simp [hb] at h
    · simp only [hb, if_false, if_neg] at h
      by_cases hp : effectivePages (ListParser.parse (dl html)).2 mp ≤ 1
      · simp [hp] at h
      · simp only [hp, if_false, if_neg] at h
        cases hg : gatherE ((pageRangeInt (effectivePages (ListParser.parse (dl html)).2 mp)).map
            (PremierScraper.fetch_page_links pt dl)) with
        | ok rs => rw [hg] at h; simp [Except.map] at h
        | error d =>
          rw [hg] at h
          simp only [Except.map, Except.error.injEq] at h
          subst h
          have hmem := gatherE_error_mem _ _ hg
          rw [List.mem_map] at hmem
          obtain ⟨p, _, hfp⟩ := hmem
          exact fetch_page_links_error_shape pt dl p _ hfp

theorem scrape_items_error_shape
    (tr : String → Except PyExc String) (docOf : String → ItemDoc)
    (urls : List String) (st : Bool) (e : PyExc)
    (h : PremierScraper.scrape_items_from_urls tr docOf urls st = .error e) :
    e = .connectionError := by
  unfold PremierScraper.scrape_items_from_urls at h
  by_cases hu : urls.isEmpty
  · simp [hu] at h
  · have hu2 : urls.isEmpty = false := by simpa using hu
    rw [hu2] at h
    simp only [Bool.false_eq_true, if_false] at h
    cases hg : gatherE (urls.map (fun u => PremierScraper.get_item_info tr docOf u st)) with
    | ok rs => rw [hg] at h; simp [Except.map] at h
    | error d =>
      rw [hg] at h
      simp only [Except.map, Except.error.injEq] at h
      subst h
      have hmem := gatherE_error_mem _ _ hg
      rw [List.mem_map] at hmem
      obtain ⟨u, _, hfp⟩ := hmem
      exact get_item_info_error_shape tr docOf u st _ hfp

/-- C1: for every call to `search` or `scrape` in which the number of
non-null criteria among {term, date, category} is not exactly one, the call
fails with `ValueError` and issues no network fetch; when exactly one
criterion is supplied, no validation error is raised. -/
theorem C1_criterion_validation :
    ∀ (term : Option String) (date : Option PyDate) (genre : Option PremierGenre)
      (env : PremierScraper.SearchEnv) (ienv : PremierScraper.ItemEnv)
      (mp : Option Int) (st : Bool),
      (PremierScraper.countCriteria term date genre ≠ 1 →
        PremierScraper.search term date genre env mp
            = (.error .valueError, []) ∧
        PremierScraper.scrape term date genre env ienv mp st
            = (.error .valueError, [])) ∧
      (PremierScraper.countCriteria term date genre = 1 →
        (PremierScraper.search term date genre env mp).1 ≠ .error .valueError ∧
        (PremierScraper.scrape term date genre env ienv mp st).1
            ≠ .error .valueError) := by
  intro term date genre env ienv mp st
  constructor
  · intro hne
    have hsearch : PremierScraper.search term date genre env mp
        = (.error .valueError, []) := by
      unfold PremierScraper.search
      simp [hne]
    refine ⟨hsearch, ?_⟩
    unfold PremierScraper.scrape
    rw [hsearch]
  · intro heq
    have hsearch : PremierScraper.search term date genre env mp
        = PremierScraper.scrape_urls_trace
            (env.initial (PremierScraper.buildPayload term date genre))
            (env.page (PremierScraper.buildPayload term date genre))
            env.docOfList mp := by
      unfold PremierScraper.search
      simp [heq]
    constructor
    · intro hbad
      rw [hsearch] at hbad
      have := scrape_urls_error_shape _ _ _ _ _ hbad
      simp at this
    · intro hbad
      unfold PremierScraper.scrape at hbad
      rw [hsearch] at hbad
      cases hres : PremierScraper.scrape_urls_trace
          (env.initial (PremierScraper.buildPayload term date genre))
          (env.page (PremierScraper.buildPayload term date genre))
          env.docOfList mp with
      | mk r tr =>
        rw [hres] at hbad
        cases r with
        | error d =>
          simp only at hbad
          have hd : (PremierScraper.scrape_urls_trace
              (env.initial (PremierScraper.buildPayload term date genre))
              (env.page (PremierScraper.buildPayload term date genre))
              env.docOfList mp).1 = .error d := by
            rw [hres]
          have := scrape_urls_error_shape _ _ _ _ _ hd
          subst this
          simp at hbad
        | ok urls =>
          simp only at hbad
          have := scrape_items_error_shape ienv.transport ienv.docOfItem urls st
            .valueError hbad
          simp at this

theorem pageParams_map_page (l : List Int) :
    pageParams (l.map FetchCall.page) = l := by
  induction l with
  | nil => rfl
  | cons p ps ih =>
    simpa [pageParams, List.filterMap_cons] using ih

theorem pageParams_initial_map (l : List Int) :
    pageParams (FetchCall.initial :: l.map FetchCall.page) = l := by
  simpa [pageParams, List.filterMap_cons] using pageParams_map_page l

/-- C5: the effective page count is `min(totalPages, maxPages)` under a cap
and `totalPages` otherwise; the page-parameter fetches issued by
`_scrape_urls` are exactly `range(1, effective)`, so an effective count of at
most 1 issues zero additional fetches, and a cap below the discovered total
issues exactly `maxPages - 1` additional fetches (one per additional results
page, the k-th additional page carrying page parameter k), never more. -/
theorem C5_effective_page_fanout :
    ∀ (pt : Int → Except PyExc String) (dl : String → ListDoc)
      (html : String) (mp : Option Int),
      html ≠ "" →
      pageParams (PremierScraper.scrape_urls_trace (.ok html) pt dl mp).2
          = pageRangeInt (effectivePages (ListParser.parse (dl html)).2 mp) ∧
      (effectivePages (ListParser.parse (dl html)).2 mp ≤ 1 →
        pageParams (PremierScraper.scrape_urls_trace (.ok html) pt dl mp).2 = []) ∧
      (∀ m : Int, mp = some m → m < (ListParser.parse (dl html)).2 →
        (pageParams (PremierScraper.scrape_urls_trace (.ok html) pt dl mp).2).length
          = (m - 1).toNat) := by
  intro pt dl html mp hne
  by_cases hp : effectivePages (ListParser.parse (dl html)).2 mp ≤ 1
  · have htr : (PremierScraper.scrape_urls_trace (.ok html) pt dl mp).2
        = [FetchCall.initial] := by
      unfold PremierScraper.scrape_urls_trace
      simp [BaseScraper.fetch, hne, hp]
    refine ⟨?_, ?_, ?_⟩
    · rw [htr]
      have hz : (effectivePages (ListParser.parse (dl html)).2 mp - 1).toNat = 0 := by
        omega
      simp [pageParams, pageRangeInt, hz]
    · intro _
      rw [htr]
      simp [pageParams]
    · intro m hm hlt
      subst hm
      have hE : effectivePages (ListParser.parse (dl html)).2 (some m) = m := by
        simp only [effectivePages]
        omega
      rw [htr]
      rw [hE] at hp
      simp [pageParams]
      omega
  · have htr : (PremierScraper.scrape_urls_trace (.ok html) pt dl mp).2
        = FetchCall.initial ::
            (pageRangeInt (effectivePages (ListParser.parse (dl html)).2 mp)).map
              FetchCall.page := by
      unfold PremierScraper.scrape_urls_trace
      simp [BaseScraper.fetch, hne, hp]
    refine ⟨?_, ?_, ?_⟩
    · rw [htr, pageParams_initial_map]
    · intro hcontra
      exact absurd hcontra hp
    · intro m hm hlt
      subst hm
      have hE : effectivePages (ListParser.parse (dl html)).2 (some m) = m := by
        simp only [effectivePages]
        omega
      rw [htr, pageParams_initial_map, hE]
      rw [pageRangeInt, List.length_map, List.length_range']

/-- C7: the listing parse returns `([], 0)` whenever the empty-results marker
is present, regardless of the rest of the document; otherwise, when the
last-page marker is absent, it returns exactly 1 page together with the
thumbnail links resolved against the site base URL. -/
theorem C7_listing_parse :
    ∀ (doc : ListDoc),
      (doc.hasEmptyMarker = true → ListParser.parse doc = ([], 0)) ∧
      (doc.hasEmptyMarker = false → doc.pagerLastText = none →
        ListParser.parse doc
          = (extract_urls doc.thumbnailHrefs (some twitcastingBase), 1)) := by
  intro doc
  constructor
  · intro h
    simp [ListParser.parse, h]
  · intro h hpager
    simp [ListParser.parse, h, ListParser.get_total_pages, hpager]

/-- C9: the detail-page parse writes the `url` argument through to the
resulting record's `url` field unchanged, for every document (in particular
when all other fields are present). -/
theorem C9_url_passthrough :
    ∀ (doc : ItemDoc) (url : String) (strip : Bool),
      (ItemParser.parse doc url strip).url = url :=
  fun _ _ _ => rfl

/-- C6: in every state a fan-out call's limiter can reach, at most
`concurrency` fetches are in flight - for every concurrency value, in
particular 1, 5 and 10; a pending task is only admitted by an `acquire` step
when a slot is free, so excess tasks wait. -/
theorem C6_concurrency_bound :
    ∀ (concurrency numTasks : Nat) (s : SemState),
      SemReachable concurrency numTasks s → inFlight s ≤ concurrency := by
  intro c m s h
  have hinv := semInvariant h
  omega

theorem C6_concurrency_bound_witness :
    SemReachable 5 3
        ⟨4, [TaskPhase.running, TaskPhase.pending, TaskPhase.pending]⟩ ∧
    inFlight ⟨4, [TaskPhase.running, TaskPhase.pending, TaskPhase.pending]⟩ ≤ 5 := by
  have hreach : SemReachable 5 3
      ⟨4, [TaskPhase.running, TaskPhase.pending, TaskPhase.pending]⟩ :=
    SemReachable.step SemReachable.init
      (SemStep.acquire 4 [] [TaskPhase.pending, TaskPhase.pending])
  exact ⟨hreach, C6_concurrency_bound 5 3 _ hreach⟩

/-- C2 divergence: when the page-1 fetch fails (here a timeout),
`BaseScraper.fetch` re-raises it as builtin `ConnectionError`, which the
`except (ClientError, TypeError, TimeoutError)` clause of `_scrape_urls` does
not match, so `search`/`_scrape_urls` raises `ConnectionError` instead of
returning an empty result. -/
theorem C2_page1_failure_raises :
    PremierScraper.scrape_urls_trace (Except.error PyExc.timeoutError)
        (fun _ => Except.ok "") (fun _ => emptyListDoc) none
      = (Except.error PyExc.connectionError, [FetchCall.initial]) := rfl

/-- C3 divergence: of two item fetches the second fails with a transport
error; `fetch` wraps it in builtin `ConnectionError`, `_get_premier_item`'s
handler does not match it, and `gather` re-raises, so
`_scrape_items_from_urls` raises instead of dropping the failed entry and
returning the surviving one. -/
theorem C3_item_failure_raises :
    PremierScraper.scrape_items_from_urls c3Transport (fun _ => emptyItemDoc)
        ["u1", "u2"] false
      = Except.error PyExc.connectionError := rfl

/-- C4 divergence: page 1 discovers 3 pages; of the two additional page
fetches the first fails with a transport error, which surfaces as builtin
`ConnectionError` past `_fetch_page_links`'s handler, and `gather` re-raises:
the batch aborts and the sibling page's successfully fetched links are lost. -/
theorem C4_page_failure_aborts_batch :
    PremierScraper.scrape_urls_trace (Except.ok "p1") c4PageTransport c4DocOf none
      = (Except.error PyExc.connectionError,
          [FetchCall.initial, FetchCall.page 1, FetchCall.page 2]) := rfl

theorem taxIncluded_data_eq :
    taxIncluded.data = '(' :: "tax included)".data := by decide

theorem taxIncluded_paren_count :
    countParen ('(' :: "tax included)".data) = 1 := by decide

/-- C8 counterexample: on the raw price text
`"(tax inc(tax included)luded)"` the single-pass removal performed by
`ItemParser.parse` yields exactly `"(tax included)"`, so the returned ticket
price does contain the substring the claim says is never present. -/
theorem C8_counterexample :
    ((ItemParser.parse c8SpliceDoc "u" false).tickets.map PremierTicket.price)
        = [some "(tax included)"] ∧
    containsSub taxIncluded "(tax included)" = true := by
  exact ⟨rfl, rfl⟩

/-- C8 (amended): each ticket price is the raw text with the occurrences of
"(tax included)" deleted in one left-to-right pass and whitespace stripped;
the deletion can splice a new occurrence out of the surrounding characters
(see the counterexample), but whenever a ticket's raw price text contains at
most one opening parenthesis, the returned price never contains
"(tax included)". -/
theorem C8_price_tax_stripped :
    ∀ (doc : ItemDoc) (url : String) (st : Bool),
      (∀ td ∈ doc.tickets, countParen (td.priceText.getD "").data ≤ 1) →
      ∀ t ∈ (ItemParser.parse doc url st).tickets, ∀ p : String,
        t.price = some p → containsSub taxIncluded p = false := by
  intro doc url st hraw t ht p hp
  unfold ItemParser.parse at ht
  simp only [List.mem_map] at ht
  obtain ⟨td, htd, hteq⟩ := ht
  subst hteq
  dsimp only at hp
  cases hpt : td.priceText with
  | none => rw [hpt] at hp; simp at hp
  | some raw =>
    rw [hpt] at hp
    have hpe : p = pyStrip (pyRemoveAll raw taxIncluded) := by
      simpa using hp.symm
    subst hpe
    have hcount : countParen raw.data ≤ 1 := by
      have hh := hraw td htd
      rw [hpt] at hh
      simpa using hh
    by_contra hcontra
    have hct : containsSub taxIncluded (pyStrip (pyRemoveAll raw taxIncluded))
        = true := by
      simpa using hcontra
    unfold containsSub pyStrip pyRemoveAll removeAllChars at hct
    simp only at hct
    rw [taxIncluded_data_eq] at hct
    have h2 := containsPat_strip _ _ hct
    have h3 := clean_after_remove "tax included)".data taxIncluded_paren_count
      raw.data.length raw.data le_rfl hcount
    rw [h3] at h2
    exact Bool.false_ne_true h2

theorem map_ok_extract {α β ε : Type} (f : α → Except ε β) (g : α → β)
    (hfg : ∀ a b, f a = .ok b → g a = b) :
    ∀ (l : List α) (r : List β), l.map f = r.map Except.ok → r = l.map g := by
  intro l
  induction l with
  | nil =>
    intro r h
    cases r with
    | nil => rfl
    | cons b bs => simp at h
  | cons a as ih =>
    intro r h
    cases r with
    | nil => simp at h
    | cons b bs =>
      simp only [List.map_cons, List.cons.injEq] at h
      obtain ⟨h1, h2⟩ := h
      rw [List.map_cons, hfg a b h1, ← ih bs h2]

/-- C10: results are gathered in task-submission order, so whenever the item
fan-out returns, its records are the per-URL outcomes of the input list in
input order with dropped entries absent, and whenever the page fan-out runs
(effective count above 1) and returns, the merged list is the page-1 links
followed by the per-page link lists in ascending page-parameter order. -/
theorem C10_order_preservation :
    (∀ (tr : String → Except PyExc String) (docOf : String → ItemDoc)
        (urls : List String) (st : Bool) (res : List PremierItem),
        PremierScraper.scrape_items_from_urls tr docOf urls st = .ok res →
        res = urls.filterMap (fun u => itemOutcome tr docOf u st)) ∧
    (∀ (pt : Int → Except PyExc String) (dl : String → ListDoc)
        (html : String) (mp : Option Int) (L : List String) (tr2 : List FetchCall),
        html ≠ "" →
        1 < effectivePages (ListParser.parse (dl html)).2 mp →
        PremierScraper.scrape_urls_trace (.ok html) pt dl mp = (.ok L, tr2) →
        L = (ListParser.parse (dl html)).1
            ++ ((pageRangeInt (effectivePages (ListParser.parse (dl html)).2 mp)).map
                  (fun p => pageOutcome pt dl p)).flatten) := by
  constructor
  · intro tr docOf urls st res h
    unfold PremierScraper.scrape_items_from_urls at h
    by_cases hu : urls.isEmpty
    · have hnil : urls = [] := by simpa using hu
      subst hnil
      simp at h
      simp [← h]
    · have hu2 : urls.isEmpty = false := by simpa using hu
      rw [hu2] at h
      simp only [Bool.false_eq_true, if_false] at h
      cases hg : gatherE (urls.map fun u => PremierScraper.get_item_info tr docOf u st) with
      | error d => rw [hg] at h; simp [Except.map] at h
      | ok rs =>
        rw [hg] at h
        simp only [Except.map, Except.ok.injEq] at h
        have hrs := (gatherE_eq_ok _ rs).mp hg
        have hout : rs = urls.map (fun u => itemOutcome tr docOf u st) :=
          map_ok_extract _ _ (fun a b hab => by simp [itemOutcome, hab]) urls rs hrs
        rw [← h, hout, List.filterMap_map]
        simp [Function.comp]
  · intro pt dl html mp L tr2 hne hgt h
    unfold PremierScraper.scrape_urls_trace at h
    have hp : ¬ effectivePages (ListParser.parse (dl html)).2 mp ≤ 1 := by omega
    simp only [BaseScraper.fetch, hne, hp, if_false] at h
    simp only [Prod.mk.injEq] at h
    obtain ⟨h1, _⟩ := h
    cases hg : gatherE ((pageRangeInt (effectivePages (ListParser.parse (dl html)).2 mp)).map
        (PremierScraper.fetch_page_links pt dl)) with
    | error d => rw [hg] at h1; simp [Except.map] at h1
    | ok rs =>
      rw [hg] at h1
      simp only [Except.map, Except.ok.injEq] at h1
      have hrs := (gatherE_eq_ok _ rs).mp hg
      have hout : rs = (pageRangeInt (effectivePages (ListParser.parse (dl html)).2 mp)).map
          (fun p => pageOutcome pt dl p) :=
        map_ok_extract _ _ (fun a b hab => by simp [pageOutcome, hab]) _ rs hrs
      rw [← h1, hout]

theorem C1_criterion_validation_witness :
    PremierScraper.search none none none trivialSearchEnv none
        = (Except.error PyExc.valueError, []) ∧
    (PremierScraper.search (some "x") none none trivialSearchEnv none).1
        ≠ Except.error PyExc.valueError := by
  refine ⟨?_, ?_⟩
  · exact ((C1_criterion_validation none none none trivialSearchEnv trivialItemEnv
      none false).1 (by decide)).1
  · exact ((C1_criterion_validation (some "x") none none trivialSearchEnv trivialItemEnv
      none false).2 (by decide)).1

theorem C5_effective_page_fanout_witness :
    pageParams (PremierScraper.scrape_urls_trace (.ok "h")
        (fun _ => Except.ok "h2") c5DocOf (some 3)).2
      = pageRangeInt (effectivePages (ListParser.parse (c5DocOf "h")).2 (some 3)) ∧
    (pageParams (PremierScraper.scrape_urls_trace (.ok "h")
        (fun _ => Except.ok "h2") c5DocOf (some 3)).2).length
      = ((3 : Int) - 1).toNat := by
  have h := C5_effective_page_fanout (fun _ => Except.ok "h2") c5DocOf "h" (some 3)
    (by decide)
  exact ⟨h.1, h.2.2 3 rfl (by decide)⟩

theorem C7_listing_parse_witness :
    ListParser.parse ⟨true, [some "/x"], some "7"⟩ = ([], 0) ∧
    ListParser.parse ⟨false, [some "/x"], none⟩
        = (extract_urls [some "/x"] (some twitcastingBase), 1) := by
  exact ⟨(C7_listing_parse ⟨true, [some "/x"], some "7"⟩).1 rfl,
    (C7_listing_parse ⟨false, [some "/x"], none⟩).2 rfl rfl⟩

theorem C8_price_tax_stripped_witness :
    (∀ td ∈ c8CleanDoc.tickets, countParen (td.priceText.getD "").data ≤ 1) ∧
    (⟨some "General", some "1,000 JPY"⟩ : PremierTicket)
        ∈ (ItemParser.parse c8CleanDoc "u" false).tickets ∧
    containsSub taxIncluded "1,000 JPY" = false := by
  refine ⟨by decide, by decide, ?_⟩
  exact C8_price_tax_stripped c8CleanDoc "u" false (by decide)
    ⟨some "General", some "1,000 JPY"⟩ (by decide) "1,000 JPY" (by decide)

theorem C10_order_preservation_witness :
    ([ItemParser.parse emptyItemDoc "u1" false, ItemParser.parse emptyItemDoc "u3" false]
        = ["u1", "u2", "u3"].filterMap
            (fun u => itemOutcome c10ItemTransport (fun _ => emptyItemDoc) u false)) ∧
    ([c10Link, c10Link, c10Link]
        = (ListParser.parse (c5DocOf "h")).1
          ++ ((pageRangeInt (effectivePages (ListParser.parse (c5DocOf "h")).2 (some 3))).map
                (fun p => pageOutcome (fun _ => Except.ok "h2") c5DocOf p)).flatten) := by
  refine ⟨?_, ?_⟩
  · exact C10_order_preservation.1 c10ItemTransport (fun _ => emptyItemDoc)
      ["u1", "u2", "u3"] false _ rfl
  · exact C10_order_preservation.2 (fun _ => Except.ok "h2") c5DocOf "h" (some 3)
      [c10Link, c10Link, c10Link]
      [FetchCall.initial, FetchCall.page 1, FetchCall.page 2]
      (by decide) (by decide) rfl
